import Mathlib

/-!
Verification of the Port Authority blocking decision engine.

The definitions below are a shallow embedding of the background script
(`cancel`, `local_filter`, `normalizeFQDN`, `handleUpdated`, `onMessage`)
of the Port-Authority browser extension.  JavaScript regular expressions
are embedded as nondeterministic matchers over lists of characters,
JavaScript `URL` objects as a record of hostname and port, and the
browser storage / DNS capabilities as explicit parameters.
-/

namespace PortAuthority

/-! ## JavaScript regex primitives

A matcher takes the input (a list of characters) and returns the list of
all possible remainders after consuming some prefix accepted by the
corresponding regex fragment.  This models a backtracking JS regex engine:
`RegExp.test` succeeds when at least one alternative leads to an overall
match.  The `local_filter` regex contains no unbounded repetition, so all
fragments are finite and the matcher is structurally total.
-/

/-- JavaScript word character class (`\w` and the classes relevant to `\b`):
ASCII letters, digits and underscore. -/
def wordChar (c : Char) : Bool :=
  ('a' ≤ c && c ≤ 'z') || ('A' ≤ c && c ≤ 'Z') || ('0' ≤ c && c ≤ '9') || c = '_'

/-- JavaScript line terminators, which `.` (without the `s` flag) does not match. -/
def lineTerm (c : Char) : Bool :=
  c = '\n' || c = '\r' || c = '\u2028' || c = '\u2029'

/-- Nondeterministic matcher: possible remainders after one regex fragment. -/
abbrev M := List Char → List (List Char)

/-- Empty regex fragment: consumes nothing. -/
def mEps : M := fun l => [l]

/-- Single-character fragment matching a character class given by a predicate. -/
def mPred (p : Char → Bool) : M := fun l =>
  match l with
  | [] => []
  | c :: cs => if p c then [cs] else []

/-- Literal character, compared case-insensitively (the regex has the `i` flag);
the pattern characters are all lowercase, so the input is lowercased. -/
def mChar (c : Char) : M := mPred (fun x => x.toLower = c)

/-- The JS `.` metacharacter: any character except a line terminator. -/
def mAny : M := mPred (fun x => !lineTerm x)

/-- Concatenation of fragments. -/
def mCat (f g : M) : M := fun l => (f l).flatMap g

/-- Alternation of two fragments. -/
def mAlt (f g : M) : M := fun l => f l ++ g l

/-- A regex fragment that matches nothing (used as the base of alternation lists). -/
def mNone : M := fun _ => []

/-- Alternation over a list of fragments. -/
def mAlts (fs : List M) : M := fs.foldr mAlt mNone

/-- Optional fragment (`?`): either skip it or consume it. -/
def mOpt (f : M) : M := fun l => l :: f l

/-- String literal fragment over a list of pattern characters. -/
def mStrL (cs : List Char) : M := cs.foldr (fun c acc => mCat (mChar c) acc) mEps

/-- String literal fragment, e.g. `mStr "localhost"` for the pattern `localhost`. -/
def mStr (s : String) : M := mStrL s.data

/-- Digit range character class, e.g. `digitRange '0' '5'` for `[0-5]`. -/
def digitRange (lo hi : Char) : M := mPred (fun c => lo ≤ c && c ≤ hi)

/-! ## The `local_filter` regex

Embedding of the regex built in `cancel` (flags `i`):

`\b(^S://127[.]O[.]O[.]O|^S://0.0.0.0|^S://(10)([.]T){3}|^S://localhost|^S://172[.](0?16|...|0?31)[.]O[.]O|^S://192[.]168[.]O[.]O|^S://169[.]254[.]O[.]O)(?:\/([789]|1?[0-9]{2}))?\b`

where `S = (http|https|wss|ws|ftp|ftps)`,
`O = (?:25[0-5]|2[0-4][0-9]|[01]?[0-9][0-9]?)` and
`T = (25[0-5]|2[0-4][0-9]|1[0-9]{1,2}|[0-9]{1,2})`.
The dots in the `0.0.0.0` branch are unescaped in the source and therefore
match any character.
-/

/-- The octet pattern `(?:25[0-5]|2[0-4][0-9]|[01]?[0-9][0-9]?)`. -/
def oct255 : M :=
  mAlts [ mCat (mStr "25") (digitRange '0' '5'),
          mCat (mChar '2') (mCat (digitRange '0' '4') (digitRange '0' '9')),
          mCat (mOpt (digitRange '0' '1')) (mCat (digitRange '0' '9') (mOpt (digitRange '0' '9'))) ]

/-- The octet pattern of the `10.x.x.x` branch:
`(25[0-5]|2[0-4][0-9]|1[0-9]{1,2}|[0-9]{1,2})`. -/
def oct10 : M :=
  mAlts [ mCat (mStr "25") (digitRange '0' '5'),
          mCat (mChar '2') (mCat (digitRange '0' '4') (digitRange '0' '9')),
          mCat (mChar '1') (mCat (digitRange '0' '9') (mOpt (digitRange '0' '9'))),
          mCat (digitRange '0' '9') (mOpt (digitRange '0' '9')) ]

/-- The scheme alternation `(http|https|wss|ws|ftp|ftps)`. -/
def schemeAlt : M :=
  mAlts [mStr "http", mStr "https", mStr "wss", mStr "ws", mStr "ftp", mStr "ftps"]

/-- A scheme followed by the literal `://`. -/
def schemeHead : M := mCat schemeAlt (mStr "://")

/-- The fragment `[.]O`: a literal dot followed by an octet. -/
def dotOct : M := mCat (mChar '.') oct255

/-- The `127.0.0.0/8` branch: `^S://127[.]O[.]O[.]O`. -/
def branch127 : M := mCat schemeHead (mCat (mStr "127") (mCat dotOct (mCat dotOct dotOct)))

/-- The `0.0.0.0` branch: `^S://0.0.0.0` with unescaped (any-character) dots. -/
def branch0000 : M :=
  mCat schemeHead
    (mCat (mChar '0') (mCat mAny (mCat (mChar '0') (mCat mAny (mCat (mChar '0') (mCat mAny (mChar '0')))))))

/-- The `10.0.0.0/8` branch: `^S://(10)([.]T){3}`. -/
def branch10 : M :=
  mCat schemeHead
    (mCat (mStr "10")
      (mCat (mCat (mChar '.') oct10) (mCat (mCat (mChar '.') oct10) (mCat (mChar '.') oct10))))

/-- The `localhost` branch: `^S://localhost`. -/
def branchLocalhost : M := mCat schemeHead (mStr "localhost")

/-- The second octet of the `172.16.0.0/12` branch:
`(0?16|0?17|0?18|0?19|0?20|0?21|0?22|0?23|0?24|0?25|0?26|0?27|0?28|0?29|0?30|0?31)`. -/
def mid172 : M :=
  mAlts [ mCat (mOpt (mChar '0')) (mStr "16"), mCat (mOpt (mChar '0')) (mStr "17"),
          mCat (mOpt (mChar '0')) (mStr "18"), mCat (mOpt (mChar '0')) (mStr "19"),
          mCat (mOpt (mChar '0')) (mStr "20"), mCat (mOpt (mChar '0')) (mStr "21"),
          mCat (mOpt (mChar '0')) (mStr "22"), mCat (mOpt (mChar '0')) (mStr "23"),
          mCat (mOpt (mChar '0')) (mStr "24"), mCat (mOpt (mChar '0')) (mStr "25"),
          mCat (mOpt (mChar '0')) (mStr "26"), mCat (mOpt (mChar '0')) (mStr "27"),
          mCat (mOpt (mChar '0')) (mStr "28"), mCat (mOpt (mChar '0')) (mStr "29"),
          mCat (mOpt (mChar '0')) (mStr "30"), mCat (mOpt (mChar '0')) (mStr "31") ]

/-- The `172.16.0.0/12` branch: `^S://172[.](0?16|...|0?31)[.]O[.]O`. -/
def branch172 : M :=
  mCat schemeHead (mCat (mStr "172") (mCat (mChar '.') (mCat mid172 (mCat dotOct dotOct))))

/-- The `192.168.0.0/16` branch: `^S://192[.]168[.]O[.]O`. -/
def branch192 : M := mCat schemeHead (mCat (mStr "192.168") (mCat dotOct dotOct))

/-- The `169.254.0.0/16` branch: `^S://169[.]254[.]O[.]O`. -/
def branch169 : M := mCat schemeHead (mCat (mStr "169.254") (mCat dotOct dotOct))

/-- The whole anchored host alternation of `local_filter`. -/
def hostAlt : M :=
  mAlts [branch127, branch0000, branch10, branchLocalhost, branch172, branch192, branch169]

/-- The optional trailing group `(?:\/([789]|1?[0-9]{2}))`: a literal slash
followed by `[789]` or `1?[0-9]{2}`. -/
def portGroup : M :=
  mCat (mChar '/')
    (mAlt (mPred (fun c => c = '7' || c = '8' || c = '9'))
          (mCat (mOpt (mChar '1')) (mCat (digitRange '0' '9') (digitRange '0' '9'))))

/-- The leading `\b` of `local_filter`: since every alternative of the host
alternation is anchored with `^`, a match can only start at position 0, where a
word boundary holds exactly when the first character is a word character. -/
def startBoundary (l : List Char) : Bool :=
  match l with
  | [] => false
  | c :: _ => wordChar c

/-- The trailing `\b` of `local_filter`, evaluated at the remainder left by the
host alternation (optionally extended by `portGroup`).  Every alternative of
the pattern ends in a word character (a digit or a letter), so the boundary
holds exactly when the input is exhausted or continues with a non-word
character. -/
def endBoundary (rest : List Char) : Bool :=
  match rest with
  | [] => true
  | c :: _ => !wordChar c

/-- `local_filter.test(s)`: the embedding of
`new RegExp("\\b(^...|...)(?:\/([789]|1?[0-9]{2}))?\\b", "i").test(s)`. -/
def local_filter_test (s : String) : Bool :=
  startBoundary s.data &&
    (hostAlt s.data).any (fun rest => endBoundary rest || (portGroup rest).any endBoundary)

/-- `thm.test(s)`: the embedding of `new RegExp("online-metrix[.]net$", "i").test(s)`.
The pattern is a literal anchored at the end of the input, so the test succeeds
exactly when the lowercased input ends with the literal. -/
def thm_test (s : String) : Bool :=
  "online-metrix.net".data.isSuffixOf (s.data.map Char.toLower)

/-! ## FQDN normalization

`normalizeFQDN` rewrites `url.hostname` with
`url.hostname.match(/^(.*?)\.?$/)?.[1] ?? ""`.  The pattern is anchored at both
ends; `.*?` cannot cross a line terminator, so the match succeeds exactly when
the hostname contains no line terminator, and the lazy group then captures the
hostname minus at most one trailing dot (the lazy `.*?` prefers to leave a
trailing dot to the `\.?`).  When the match fails the code falls back to `""`.
-/

/-- The hostname rewrite of `normalizeFQDN`: strip at most one trailing dot
when the match succeeds, `""` when it fails. -/
def normalizeHostString (s : String) : String :=
  if s.data.all (fun c => !lineTerm c) then
    if s.data.getLast? = some '.' then String.mk s.data.dropLast else s
  else ""

/-! ## URL objects and the environment of `cancel`

A JavaScript `URL` object is modelled by the fields the engine reads:
`hostname` (no port) and the optional port; `host` is derived.  The browser
capabilities used by `cancel` are passed explicitly:

* `parseURL` models the `new URL(...)` constructor (`none` = throws);
* `allowedDomains` models `getItemFromLocal("allowed_domain_list", [])`
  (the storage module is repo code outside `src/`; modelled from the spec:
  the key-value persistence service returns the stored list or the default);
* `resolve` models `browser.dns.resolve(host, ["canonical_name"])`
  (`Except.error` = the returned promise rejects).
-/

/-- The part of a JS `URL` object read by the engine. -/
structure URLRec where
  hostname : String
  port : String
  deriving DecidableEq, Repr

/-- The `host` property: `hostname`, plus `:port` when a port is present. -/
def URLRec.host (u : URLRec) : String :=
  if u.port = "" then u.hostname else u.hostname ++ ":" ++ u.port

/-- `normalizeFQDN(url)`: mutates `url.hostname` by the trailing-dot rewrite. -/
def normalizeFQDN (u : URLRec) : URLRec :=
  { u with hostname := normalizeHostString u.hostname }

/-- A DNS resolution failure (the promise returned by `browser.dns.resolve`
rejects with some error value). -/
structure DnsError where
  msg : String
  deriving DecidableEq, Repr

/-- Decidable equality for `Except` results, so that concrete runs of `cancel`
can be checked by `decide`. -/
instance exceptDecEq {ε α : Type} [DecidableEq ε] [DecidableEq α] : DecidableEq (Except ε α) :=
  fun a b =>
    match a, b with
    | .ok x, .ok y =>
      if h : x = y then isTrue (by rw [h]) else isFalse (by intro hh; cases hh; exact h rfl)
    | .error x, .error y =>
      if h : x = y then isTrue (by rw [h]) else isFalse (by intro hh; cases hh; exact h rfl)
    | .ok _, .error _ => isFalse (by intro hh; cases hh)
    | .error _, .ok _ => isFalse (by intro hh; cases hh)

/-- The record resolved by `browser.dns.resolve(host, ["canonical_name"])`. -/
structure DnsRecord where
  canonicalName : String
  deriving DecidableEq, Repr

/-- The browser capabilities and stored data consumed by `cancel`. -/
structure Env where
  parseURL : String → Option URLRec
  allowedDomains : List String
  resolve : String → Except DnsError DnsRecord

/-- The request descriptor passed to `cancel`.  `none` models an absent (or
empty, hence falsy) field. -/
structure RequestDetails where
  originUrl : Option String
  documentUrl : Option String
  thirdParty : Bool
  url : Option String
  tabId : Int
  deriving DecidableEq, Repr

/-- The value returned by `cancel`: `{ cancel: boolean }`. -/
structure CancelResult where
  cancel : Bool
  deriving DecidableEq, Repr

/-- Side effects of `cancel` on the badge and the per-tab ledgers.  The called
functions live in the storage module (repo code outside `src/`); modelled from
the spec: a badge-increment event carries `(tabId, alerted)`, a tracker block
appends the request host to the tab's blocked-hosts ledger, and a port-scan
block records the request URL's host and port in the tab's blocked-ports
ledger.  Each effect records the normalized request URL and tab the source
passes to the corresponding call. -/
inductive Effect where
  | increaseBadge (tabId : Int) (alerted : Bool)
  | addBlockedTrackingHost (url : URLRec) (tabId : Int)
  | addBlockedPortToHost (url : URLRec) (tabId : Int)
  deriving DecidableEq, Repr

/-- Parsing step for one optional URL field inside the `try` block: an absent
field is skipped, a present field either parses or throws (outer `none`). -/
def parseOpt (env : Env) (s? : Option String) : Option (Option URLRec) :=
  match s? with
  | none => some none
  | some s =>
    match env.parseURL s with
    | none => none
    | some u => some (some u)

/-- The verdict function `cancel(requestDetails)`.  Returns the verdict
`{ cancel: bool }` together with the list of badge/ledger effects performed,
or `Except.error` when the evaluation escapes with a rejected promise. -/
def cancel (env : Env) (rd : RequestDetails) : Except DnsError (CancelResult × List Effect) :=
  match parseOpt env rd.originUrl, parseOpt env rd.documentUrl, parseOpt env rd.url with
  | some originUrl?, some _documentUrl?, some request? =>
    match originUrl?, request? with
    | some originUrl, some request =>
      -- `normalizeFQDN` is applied to all three URL objects
      let originUrl := normalizeFQDN originUrl
      let request := normalizeFQDN request
      -- allowlist check: exact match of the normalized origin `host`
      if env.allowedDomains.any (fun domain => originUrl.host = domain) then
        .ok (⟨false⟩, [])
      else
        -- `local_filter.test(requestDetails.url)` on the raw request string
        let is_requested_local := local_filter_test (rd.url.getD "")
        if is_requested_local then
          -- `local_filter.test(requestDetails.originUrl)` on the raw origin string
          if local_filter_test (rd.originUrl.getD "") then
            .ok (⟨false⟩, [])
          else
            .ok (⟨true⟩, [.increaseBadge rd.tabId false, .addBlockedPortToHost request rd.tabId])
        else
          -- `await browser.dns.resolve(url.host, ["canonical_name"])`: a
          -- rejected promise escapes `cancel` (there is no try/catch here)
          match env.resolve request.host with
          | .error e => .error e
          | .ok resolving =>
            if thm_test resolving.canonicalName then
              .ok (⟨true⟩, [.increaseBadge rd.tabId true, .addBlockedTrackingHost request rd.tabId])
            else
              .ok (⟨false⟩, [])
    | _, _ =>
      -- `if(!originUrl || !request)`: no origin or no request URL provided
      .ok (⟨false⟩, [])
  | _, _, _ =>
    -- the `catch` branch: some present URL field failed to parse
    .ok (⟨false⟩, [])

/-! ## Tab ledger lifecycle: `handleUpdated`

The persisted maps `badges`, `blocked_ports` and `blocked_hosts` are modelled
as functions from tab ids; the storage module is repo code outside `src/`,
modelled from the spec: `get(key, default)` returns the stored map,
`set`/`modify` replace it.  The value types of the two ledgers are opaque to
`handleUpdated` (it only deletes whole entries), so they are type parameters.
-/

/-- A per-tab badge entry `{counter, alerted, lastURL}` (the source stores the
reset values `counter: 0, alerted: 0`). -/
structure BadgeEntry where
  counter : Nat
  alerted : Nat
  lastURL : String
  deriving DecidableEq, Repr

/-- The stored state read and written by `handleUpdated`. -/
structure LedgerState (P H : Type) where
  badges : Int → Option BadgeEntry
  blocked_ports : Int → Option P
  blocked_hosts : Int → Option H

/-- The `changeInfo` argument of a tab-update event (`none` models an absent
or empty, hence falsy, `url` field). -/
structure ChangeInfo where
  url : Option String
  deriving DecidableEq, Repr

/-- The `tabInfo` argument of a tab-update event. -/
structure TabInfo where
  url : String
  deriving DecidableEq, Repr

/-- The tab-update handler `handleUpdated(tabId, changeInfo, tabInfo)`. -/
def handleUpdated {P H : Type} (tabId : Int) (changeInfo : ChangeInfo) (tabInfo : TabInfo)
    (st : LedgerState P H) : LedgerState P H :=
  match st.badges tabId, changeInfo.url with
  | none, _ => st
  | some _, none => st
  | some entry, some newUrl =>
    if entry.lastURL ≠ newUrl then
      { badges := fun t => if t = tabId then some ⟨0, 0, tabInfo.url⟩ else st.badges t,
        blocked_ports := fun t => if t = tabId then none else st.blocked_ports t,
        blocked_hosts := fun t => if t = tabId then none else st.blocked_hosts t }
    else st

/-! ## Control messages: `onMessage`

The background state is the listener attachment plus the persisted key-value
store (the storage module is repo code outside `src/`; modelled from the spec:
`get(key, default)` / `set(key, value)` over a string-keyed store).  `start()`
attaches the listener and persists `blocking_enabled = true`; `stop()` detaches
and persists `false`.
-/

/-- A value in the persisted key-value store. -/
inductive StoreVal where
  | b (v : Bool)
  | s (v : String)
  deriving DecidableEq, Repr

/-- The background script's state: whether the `onBeforeRequest` listener is
attached, and the persisted store. -/
structure BgState where
  listenerAttached : Bool
  store : List (String × StoreVal)
  deriving DecidableEq, Repr

/-- Store lookup with a default (`getItemFromLocal(key, default)`). -/
def getItemFromLocal (st : BgState) (key : String) (dflt : StoreVal) : StoreVal :=
  match st.store.find? (fun kv => kv.1 = key) with
  | some kv => kv.2
  | none => dflt

/-- Store write (`setItemInLocal(key, value)`). -/
def setItemInLocal (st : BgState) (key : String) (v : StoreVal) : BgState :=
  { st with store := (key, v) :: st.store.filter (fun kv => kv.1 ≠ key) }

/-- `start()`: attach the blocking listener and persist `blocking_enabled = true`. -/
def start (st : BgState) : BgState :=
  setItemInLocal { st with listenerAttached := true } "blocking_enabled" (.b true)

/-- `stop()`: detach the blocking listener and persist `blocking_enabled = false`. -/
def stop (st : BgState) : BgState :=
  setItemInLocal { st with listenerAttached := false } "blocking_enabled" (.b false)

/-- `isListening()`: returns the live listener-attachment state (ground truth). -/
def isListening (st : BgState) : Bool := st.listenerAttached

/-- The control messages handled by `onMessage`. -/
inductive Message where
  | popupInit
  | toggleEnabled (value : Bool)
  | setItemMsg (key : String) (value : StoreVal)
  | setNotificationsAllowed (value : Bool)
  | getItemMsg (key : String) (defaultValue : StoreVal)
  | unknown
  deriving DecidableEq, Repr

/-- The responses `onMessage` can send back. -/
inductive Response where
  | popupData (isListening notificationsAllowed : Bool)
  | value (v : StoreVal)
  deriving DecidableEq, Repr

/-- Coerce a stored value to a boolean the way the popup consumes it. -/
def StoreVal.toBool (v : StoreVal) : Bool :=
  match v with
  | .b v => v
  | .s v => v ≠ ""

/-- The message handler `onMessage(message, sender)`.  `extensionOrigin` is
`new URL(browser.runtime.getURL("")).origin`; the sender is rejected unless its
URL is exactly the extension's popup page. -/
def onMessage (extensionOrigin : String) (msg : Message) (senderUrl : String)
    (st : BgState) : Option Response × BgState :=
  if senderUrl ≠ extensionOrigin ++ "/popup/popup.html" then
    (none, st)
  else
    match msg with
    | .popupInit =>
      (some (.popupData (isListening st) (getItemFromLocal st "notificationsAllowed" (.b true)).toBool), st)
    | .toggleEnabled v => (none, if v then start st else stop st)
    | .setItemMsg k v => (none, setItemInLocal st k v)
    | .setNotificationsAllowed v => (none, setItemInLocal st "notificationsAllowed" (.b v))
    | .getItemMsg k d => (some (.value (getItemFromLocal st k d)), st)
    | .unknown => (none, st)

/-! ## Concrete sample environments

Concrete instances used to witness the theorems below on explicit inputs:
a small URL-parse table, an allowlist containing `example.com`, and a
resolver that reports a tracker CNAME for `tracker.example`, plus a variant
whose resolver always rejects.
-/

/-- A concrete environment: parse table for the sample URLs, allowlist
containing `example.com`, resolver mapping `tracker.example` to a tracker
CNAME and every other host to itself. -/
def sampleEnv : Env :=
  { parseURL := fun s =>
      if s = "http://example.com/" then some ⟨"example.com", ""⟩
      else if s = "http://10.0.0.5:80/" then some ⟨"10.0.0.5", "80"⟩
      else if s = "http://evil.example/" then some ⟨"evil.example", ""⟩
      else if s = "http://192.168.1.1:8080/" then some ⟨"192.168.1.1", "8080"⟩
      else if s = "http://tracker.example/" then some ⟨"tracker.example", ""⟩
      else if s = "http://192.168.1.1/" then some ⟨"192.168.1.1", ""⟩
      else if s = "http://192.168.1.2:22/" then some ⟨"192.168.1.2", "22"⟩
      else none,
    allowedDomains := ["example.com"],
    resolve := fun h =>
      if h = "tracker.example" then .ok ⟨"cdn.online-metrix.net"⟩ else .ok ⟨h⟩ }

/-- A concrete environment whose DNS resolver always rejects. -/
def dnsErrEnv : Env :=
  { parseURL := sampleEnv.parseURL,
    allowedDomains := [],
    resolve := fun _ => .error ⟨"NXDOMAIN"⟩ }

/-- A request from a public page to a public host, evaluated while the
resolver is failing. -/
def dnsErrRequest : RequestDetails :=
  ⟨some "http://evil.example/", some "http://evil.example/", false, some "http://tracker.example/", 3⟩

/-- A concrete ledger state with a populated entry for tab 5. -/
def sampleLedger : LedgerState (List String) (List String) :=
  { badges := fun t => if t = 5 then some ⟨3, 1, "http://old.example/"⟩ else none,
    blocked_ports := fun t => if t = 5 then some ["80", "22"] else none,
    blocked_hosts := fun t => if t = 5 then some ["x.example"] else none }

/-! ## Matcher lemmas

`MExt f` says a fragment is insensitive to input beyond what it consumes:
a remainder computed on `l` extends to a remainder on `l ++ ext`.  Together
with concrete full-match facts (decided by evaluation) this lets a match of a
compound pattern be assembled from matches of its pieces.
-/

/-- A matcher only inspects the part of the input it consumes. -/
def MExt (f : M) : Prop :=
  ∀ (l ext res : List Char), res ∈ f l → res ++ ext ∈ f (l ++ ext)

theorem mExt_eps : MExt mEps := by
  intro l ext res h
  simp [mEps] at h ⊢
  simp [h]

theorem mExt_pred (p : Char → Bool) : MExt (mPred p) := by
  intro l ext res h
  cases l with
  | nil => simp [mPred] at h
  | cons c cs =>
    by_cases hp : p c <;> simp [mPred, hp] at h ⊢
    simp [h]

theorem mExt_char (c : Char) : MExt (mChar c) := mExt_pred _

theorem mExt_digitRange (lo hi : Char) : MExt (digitRange lo hi) := mExt_pred _

theorem mExt_cat {f g : M} (hf : MExt f) (hg : MExt g) : MExt (mCat f g) := by
  intro l ext res h
  simp [mCat, List.mem_flatMap] at h ⊢
  obtain ⟨m, hm, hres⟩ := h
  exact ⟨m ++ ext, hf l ext m hm, hg m ext res hres⟩

theorem mExt_alt {f g : M} (hf : MExt f) (hg : MExt g) : MExt (mAlt f g) := by
  intro l ext res h
  simp [mAlt, List.mem_append] at h ⊢
  rcases h with h | h
  · exact Or.inl (hf l ext res h)
  · exact Or.inr (hg l ext res h)

theorem mExt_none : MExt mNone := by
  intro l ext res h
  simp [mNone] at h

theorem mExt_alts_nil : MExt (mAlts []) := mExt_none

theorem mExt_alts_cons {f : M} {fs : List M} (hf : MExt f) (hfs : MExt (mAlts fs)) :
    MExt (mAlts (f :: fs)) := mExt_alt hf hfs

theorem mExt_opt {f : M} (hf : MExt f) : MExt (mOpt f) := by
  intro l ext res h
  simp [mOpt] at h ⊢
  rcases h with h | h
  · exact Or.inl (by simp [h])
  · exact Or.inr (hf l ext res h)

theorem mExt_strL (cs : List Char) : MExt (mStrL cs) := by
  induction cs with
  | nil => exact mExt_eps
  | cons c cs ih => exact mExt_cat (mExt_pred _) ih

theorem mExt_str (s : String) : MExt (mStr s) := mExt_strL s.data

theorem mExt_oct255 : MExt oct255 :=
  mExt_alts_cons (mExt_cat (mExt_str _) (mExt_digitRange _ _))
    (mExt_alts_cons (mExt_cat (mExt_char _) (mExt_cat (mExt_digitRange _ _) (mExt_digitRange _ _)))
      (mExt_alts_cons
        (mExt_cat (mExt_opt (mExt_digitRange _ _))
          (mExt_cat (mExt_digitRange _ _) (mExt_opt (mExt_digitRange _ _))))
        mExt_alts_nil))

theorem mExt_oct10 : MExt oct10 :=
  mExt_alts_cons (mExt_cat (mExt_str _) (mExt_digitRange _ _))
    (mExt_alts_cons (mExt_cat (mExt_char _) (mExt_cat (mExt_digitRange _ _) (mExt_digitRange _ _)))
      (mExt_alts_cons
        (mExt_cat (mExt_char _) (mExt_cat (mExt_digitRange _ _) (mExt_opt (mExt_digitRange _ _))))
        (mExt_alts_cons (mExt_cat (mExt_digitRange _ _) (mExt_opt (mExt_digitRange _ _)))
          mExt_alts_nil)))

theorem mExt_schemeAlt : MExt schemeAlt :=
  mExt_alts_cons (mExt_str _) (mExt_alts_cons (mExt_str _) (mExt_alts_cons (mExt_str _)
    (mExt_alts_cons (mExt_str _) (mExt_alts_cons (mExt_str _) (mExt_alts_cons (mExt_str _)
      mExt_alts_nil)))))

theorem mExt_schemeHead : MExt schemeHead := mExt_cat mExt_schemeAlt (mExt_str _)

theorem mExt_dotOct : MExt dotOct := mExt_cat (mExt_char _) mExt_oct255

/-- Extension property of one alternative of the second octet of the 172 branch. -/
theorem mExt_mid172_entry (t : String) : MExt (mCat (mOpt (mChar '0')) (mStr t)) :=
  mExt_cat (mExt_opt (mExt_char _)) (mExt_str _)

theorem mExt_mid172 : MExt mid172 :=
  mExt_alts_cons (mExt_mid172_entry _) (mExt_alts_cons (mExt_mid172_entry _)
    (mExt_alts_cons (mExt_mid172_entry _) (mExt_alts_cons (mExt_mid172_entry _)
      (mExt_alts_cons (mExt_mid172_entry _) (mExt_alts_cons (mExt_mid172_entry _)
        (mExt_alts_cons (mExt_mid172_entry _) (mExt_alts_cons (mExt_mid172_entry _)
          (mExt_alts_cons (mExt_mid172_entry _) (mExt_alts_cons (mExt_mid172_entry _)
            (mExt_alts_cons (mExt_mid172_entry _) (mExt_alts_cons (mExt_mid172_entry _)
              (mExt_alts_cons (mExt_mid172_entry _) (mExt_alts_cons (mExt_mid172_entry _)
                (mExt_alts_cons (mExt_mid172_entry _) (mExt_alts_cons (mExt_mid172_entry _)
                  mExt_alts_nil)))))))))))))))

theorem mExt_branch10 : MExt branch10 :=
  mExt_cat mExt_schemeHead (mExt_cat (mExt_str _)
    (mExt_cat (mExt_cat (mExt_char _) mExt_oct10)
      (mExt_cat (mExt_cat (mExt_char _) mExt_oct10) (mExt_cat (mExt_char _) mExt_oct10))))

theorem mExt_branch172 : MExt branch172 :=
  mExt_cat mExt_schemeHead (mExt_cat (mExt_str _)
    (mExt_cat (mExt_char _) (mExt_cat mExt_mid172 (mExt_cat mExt_dotOct mExt_dotOct))))

/-- Assemble a full match of a concatenated pattern from full matches of the
two pieces on the two halves of the input. -/
theorem full_cat {f g : M} (hf : MExt f) {a b : List Char}
    (ha : [] ∈ f a) (hb : [] ∈ g b) : [] ∈ mCat f g (a ++ b) := by
  have hfa : b ∈ f (a ++ b) := by
    have := hf a b [] ha
    simpa using this
  simp [mCat, List.mem_flatMap]
  exact ⟨b, hfa, hb⟩

/-- A match of a fragment consumes a prefix of the input and extends to longer
input, specialized to carry a remainder out of a full match. -/
theorem mem_of_full {f : M} (hf : MExt f) {a : List Char} (ha : [] ∈ f a)
    (ext : List Char) : ext ∈ f (a ++ ext) := by
  have := hf a ext [] ha
  simpa using this

set_option maxRecDepth 20000 in
/-- Every octet value 0–255 printed in decimal is fully consumed by the octet
pattern `(?:25[0-5]|2[0-4][0-9]|[01]?[0-9][0-9]?)`. -/
theorem oct255_complete : ∀ n : Nat, n < 256 → [] ∈ oct255 (Nat.repr n).data := by decide

set_option maxRecDepth 20000 in
/-- Every second-octet value 16–31 printed in decimal is fully consumed by the
`(0?16|...|0?31)` alternation of the 172 branch. -/
theorem mid172_complete : ∀ n : Nat, n < 32 → 16 ≤ n → [] ∈ mid172 (Nat.repr n).data := by decide

/-- Each qualifying scheme followed by `://` is fully consumed by the scheme
part of every branch. -/
theorem scheme_complete :
    ∀ sch ∈ (["http", "https", "ws", "wss", "ftp", "ftps"] : List String),
      [] ∈ schemeHead (sch ++ "://").data := by decide

/-- Each qualifying scheme starts with a word character, satisfying the
leading `\b` at position 0. -/
theorem scheme_start :
    ∀ sch ∈ (["http", "https", "ws", "wss", "ftp", "ftps"] : List String),
      startBoundary sch.data = true := by decide

theorem startBoundary_append (a b : List Char) (h : startBoundary a = true) :
    startBoundary (a ++ b) = true := by
  cases a with
  | nil => simp [startBoundary] at h
  | cons c cs => simpa [startBoundary] using h

theorem hostAlt_of_branch10 {l res : List Char} (h : res ∈ branch10 l) : res ∈ hostAlt l := by
  simp [hostAlt, mAlts, mAlt, mNone, List.mem_append]
  tauto

theorem hostAlt_of_branch172 {l res : List Char} (h : res ∈ branch172 l) : res ∈ hostAlt l := by
  simp [hostAlt, mAlts, mAlt, mNone, List.mem_append]
  tauto

/-- `local_filter.test` succeeds once some host alternative matches with a
satisfied trailing word boundary and the input starts with a word character. -/
theorem test_true_of_host_mem {s : String} {rest : List Char}
    (hstart : startBoundary s.data = true)
    (hmem : rest ∈ hostAlt s.data) (hend : endBoundary rest = true) :
    local_filter_test s = true := by
  unfold local_filter_test
  rw [hstart]
  simp [List.any_eq_true]
  exact ⟨rest, hmem, Or.inl hend⟩

/-! ## Claim theorems -/

/-- C1: for every request descriptor whose `originUrl` and `requestUrl` parse
successfully and whose normalized origin host is exactly equal to some entry
of the `allowed_domain_list`, `cancel` returns `{cancel: false}` with no badge
increment and no ledger write, regardless of the request's destination. -/
theorem allowlisted_origin_allows (env : Env) (rd : RequestDetails)
    (oStr rStr : String) (oU rU : URLRec)
    (hO : rd.originUrl = some oStr) (hoP : env.parseURL oStr = some oU)
    (hR : rd.url = some rStr) (hrP : env.parseURL rStr = some rU)
    (hAllow : (normalizeFQDN oU).host ∈ env.allowedDomains) :
    cancel env rd = .ok (⟨false⟩, []) := by
  have hany : env.allowedDomains.any (fun domain => (normalizeFQDN oU).host = domain) = true := by
    simp [List.any_eq_true]
    exact hAllow
  unfold cancel
  rcases hD : parseOpt env rd.documentUrl with _ | d
  · simp [parseOpt, hO, hR, hoP, hrP, hD]
  · simp [parseOpt, hO, hR, hoP, hrP, hD, hany]

/-- Witness for C1: an allowlisted origin (`example.com`) requesting the
private-network URL `http://10.0.0.5:80/` is allowed with no effects. -/
theorem allowlisted_origin_allows_witness :
    cancel sampleEnv
      ⟨some "http://example.com/", some "http://example.com/", false, some "http://10.0.0.5:80/", 5⟩ =
      .ok (⟨false⟩, []) :=
  allowlisted_origin_allows sampleEnv _ "http://example.com/" "http://10.0.0.5:80/"
    ⟨"example.com", ""⟩ ⟨"10.0.0.5", "80"⟩ rfl (by decide) rfl (by decide) (by decide)

/-- C2 counterexample: the claim says `local_filter` rejects a private host
carrying a port outside the set `{7,8,9} ∪ 2–3-digit`; in fact the 4-digit
port `8080` and the 5-digit port `65535` are both accepted. -/
theorem local_filter_port_8080_matches :
    local_filter_test "http://10.0.0.5:8080" = true ∧
    local_filter_test "http://127.0.0.1:65535" = true := by decide

/-- C2 amended: `local_filter` does not restrict the port at all.  A private
host followed by `:` matches whatever comes after the colon: the apparent port
group of the regex requires a `/` prefix and is optional, and the trailing
word boundary is already satisfied at the `:`. -/
theorem local_filter_ignores_port :
    ∀ t : String, local_filter_test ("http://10.0.0.5:" ++ t) = true := by
  intro t
  have hbase : [] ∈ branch10 ("http://10.0.0.5".data) := by decide
  have hmemb : (":" ++ t).data ∈ branch10 ("http://10.0.0.5".data ++ (":" ++ t).data) :=
    mem_of_full mExt_branch10 hbase ((":" ++ t).data)
  have hdata : ("http://10.0.0.5:" ++ t).data = "http://10.0.0.5".data ++ (":" ++ t).data := by
    rw [show ("http://10.0.0.5:" : String) = "http://10.0.0.5" ++ ":" from rfl]
    simp [String.data_append, List.append_assoc]
  have hcons : (":" ++ t).data = ':' :: t.data := by
    rw [String.data_append]
    rfl
  have hend : endBoundary ((":" ++ t).data) = true := by
    rw [hcons]
    rfl
  have hstart : startBoundary ("http://10.0.0.5:" ++ t).data = true := by
    rw [String.data_append]
    exact startBoundary_append _ _ (by decide)
  have hmem : (":" ++ t).data ∈ hostAlt ("http://10.0.0.5:" ++ t).data := by
    rw [hdata]
    exact hostAlt_of_branch10 hmemb
  exact test_true_of_host_mem hstart hmem hend

/-- Witness for the amended C2: the private host with port `65535`. -/
theorem local_filter_ignores_port_witness :
    local_filter_test ("http://10.0.0.5:" ++ "65535") = true :=
  local_filter_ignores_port "65535"

/-- C3 counterexample: at a concrete non-allowlisted, non-private request
whose resolver rejects, `cancel` does not return the allow verdict — the
rejection escapes as an error. -/
theorem resolver_error_escapes_cancel :
    local_filter_test "http://tracker.example/" = false ∧
    dnsErrEnv.resolve "tracker.example" = .error ⟨"NXDOMAIN"⟩ ∧
    dnsErrEnv.allowedDomains = [] ∧
    cancel dnsErrEnv dnsErrRequest = .error ⟨"NXDOMAIN"⟩ ∧
    cancel dnsErrEnv dnsErrRequest ≠ .ok (⟨false⟩, []) := by decide

/-- C3 amended: when the evaluation reaches the DNS lookup (parseable URLs,
origin not allowlisted, request not classified private) and the resolver
rejects, `cancel` propagates exactly that error — the rejected promise escapes
`cancel`; in particular a resolver error never yields a block verdict. -/
theorem resolver_error_propagates (env : Env) (rd : RequestDetails)
    (oStr rStr : String) (oU rU : URLRec) (d? : Option URLRec) (e : DnsError)
    (hO : rd.originUrl = some oStr) (hoP : env.parseURL oStr = some oU)
    (hR : rd.url = some rStr) (hrP : env.parseURL rStr = some rU)
    (hD : parseOpt env rd.documentUrl = some d?)
    (hNA : (normalizeFQDN oU).host ∉ env.allowedDomains)
    (hreq : local_filter_test rStr = false)
    (hres : env.resolve (normalizeFQDN rU).host = .error e) :
    cancel env rd = .error e := by
  have hOo : parseOpt env rd.originUrl = some (some oU) := by simp [parseOpt, hO, hoP]
  have hUu : parseOpt env rd.url = some (some rU) := by simp [parseOpt, hR, hrP]
  unfold cancel
  rw [hOo, hD, hUu]
  simp [hO, hR, hNA, hreq, hres]

/-- Witness for the amended C3: the concrete failing-resolver scenario. -/
theorem resolver_error_propagates_witness :
    cancel dnsErrEnv dnsErrRequest = .error ⟨"NXDOMAIN"⟩ :=
  resolver_error_propagates dnsErrEnv dnsErrRequest
    "http://evil.example/" "http://tracker.example/"
    ⟨"evil.example", ""⟩ ⟨"tracker.example", ""⟩ (some ⟨"evil.example", ""⟩) ⟨"NXDOMAIN"⟩
    rfl (by decide) rfl (by decide) (by decide) (by decide) (by decide) (by decide)

/-- C4: a descriptor whose `originUrl` or `url` is absent or fails to parse is
allowed with no badge or ledger effect and no exception; and (second conjunct)
absence of `documentUrl` alone does not trigger this fallback — evaluation
proceeds, here all the way to a block. -/
theorem parse_failure_fails_open :
    (∀ (env : Env) (rd : RequestDetails),
      (rd.originUrl = none ∨ rd.url = none ∨
        (∃ s, rd.originUrl = some s ∧ env.parseURL s = none) ∨
        (∃ s, rd.url = some s ∧ env.parseURL s = none)) →
      cancel env rd = .ok (⟨false⟩, [])) ∧
    cancel sampleEnv
      ⟨some "http://evil.example/", none, true, some "http://192.168.1.1:8080/", 5⟩ =
      .ok (⟨true⟩, [.increaseBadge 5 false, .addBlockedPortToHost ⟨"192.168.1.1", "8080"⟩ 5]) := by
  constructor
  · intro env rd h
    unfold cancel
    rcases h with h | h | ⟨s, hs, hp⟩ | ⟨s, hs, hp⟩
    · rcases hD : parseOpt env rd.documentUrl with _ | d <;>
        rcases hU : parseOpt env rd.url with _ | u <;>
          simp [parseOpt, h, hD, hU]
    · rcases hD : parseOpt env rd.documentUrl with _ | d <;>
        rcases hO : parseOpt env rd.originUrl with _ | o <;>
          simp [parseOpt, h, hD, hO]
    · rcases hD : parseOpt env rd.documentUrl with _ | d <;>
        rcases hU : parseOpt env rd.url with _ | u <;>
          simp [parseOpt, hs, hp, hD, hU]
    · rcases hD : parseOpt env rd.documentUrl with _ | d <;>
        rcases hO : parseOpt env rd.originUrl with _ | o <;>
          simp [parseOpt, hs, hp, hD, hO]
  · decide

/-- Witness for C4: an unparseable `originUrl` is allowed with no effects. -/
theorem parse_failure_fails_open_witness :
    cancel sampleEnv ⟨some "notaurl", none, false, some "http://10.0.0.5:80/", 5⟩ =
      .ok (⟨false⟩, []) :=
  parse_failure_fails_open.1 sampleEnv _ (Or.inr (Or.inr (Or.inl ⟨"notaurl", rfl, by decide⟩)))

/-- C5: a non-allowlisted request whose raw request URL and raw origin URL are
both classified private by `local_filter` is allowed with no badge increment
and no ledger write: local-to-local traffic is never blocked. -/
theorem local_to_local_allowed (env : Env) (rd : RequestDetails)
    (oStr rStr : String) (oU rU : URLRec) (d? : Option URLRec)
    (hO : rd.originUrl = some oStr) (hoP : env.parseURL oStr = some oU)
    (hR : rd.url = some rStr) (hrP : env.parseURL rStr = some rU)
    (hD : parseOpt env rd.documentUrl = some d?)
    (hNA : (normalizeFQDN oU).host ∉ env.allowedDomains)
    (hreq : local_filter_test rStr = true)
    (horig : local_filter_test oStr = true) :
    cancel env rd = .ok (⟨false⟩, []) := by
  have hOo : parseOpt env rd.originUrl = some (some oU) := by simp [parseOpt, hO, hoP]
  have hUu : parseOpt env rd.url = some (some rU) := by simp [parseOpt, hR, hrP]
  unfold cancel
  rw [hOo, hD, hUu]
  simp [hO, hR, hNA, hreq, horig]

/-- Witness for C5: a LAN page calling another LAN device
(`http://192.168.1.1/` requesting `http://192.168.1.2:22/`) is allowed. -/
theorem local_to_local_allowed_witness :
    cancel sampleEnv
      ⟨some "http://192.168.1.1/", some "http://192.168.1.1/", false, some "http://192.168.1.2:22/", 2⟩ =
      .ok (⟨false⟩, []) :=
  local_to_local_allowed sampleEnv _ "http://192.168.1.1/" "http://192.168.1.2:22/"
    ⟨"192.168.1.1", ""⟩ ⟨"192.168.1.2", "22"⟩ (some ⟨"192.168.1.1", ""⟩)
    rfl (by decide) rfl (by decide) (by decide) (by decide) (by decide) (by decide)

/-- C6: the `172.16.0.0/12` range is validated as a genuine numeric octet
range: for every qualifying scheme and second octet 16–31 (third and fourth
octets 0–255) the classifier matches, while `172.15.0.0`, `172.32.0.0` and
`172.99.x.x` addresses do not match. -/
theorem private_range_172_numeric :
    (∀ sch ∈ (["http", "https", "ws", "wss", "ftp", "ftps"] : List String),
      ∀ o2 o3 o4 : Nat, 16 ≤ o2 → o2 ≤ 31 → o3 ≤ 255 → o4 ≤ 255 →
        local_filter_test
          (sch ++ "://172." ++ toString o2 ++ "." ++ toString o3 ++ "." ++ toString o4) = true) ∧
    local_filter_test "http://172.15.0.0" = false ∧
    local_filter_test "http://172.32.0.0" = false ∧
    local_filter_test "http://172.99.123.45" = false := by
  constructor
  · intro sch hsch o2 o3 o4 h16 h31 h3 h4
    have h2 : [] ∈ mid172 (Nat.repr o2).data := mid172_complete o2 (by omega) h16
    have ho3 : [] ∈ oct255 (Nat.repr o3).data := oct255_complete o3 (by omega)
    have ho4 : [] ∈ oct255 (Nat.repr o4).data := oct255_complete o4 (by omega)
    have hsc : [] ∈ schemeHead (sch ++ "://").data := scheme_complete sch hsch
    have h172 : [] ∈ mStr "172" ("172".data) := by decide
    have hdot : [] ∈ mChar '.' (".".data) := by decide
    have hd3 : [] ∈ dotOct (".".data ++ (Nat.repr o3).data) := full_cat (mExt_char '.') hdot ho3
    have hd4 : [] ∈ dotOct (".".data ++ (Nat.repr o4).data) := full_cat (mExt_char '.') hdot ho4
    have hbr : [] ∈ branch172 ((sch ++ "://").data ++ ("172".data ++ (".".data ++
        ((Nat.repr o2).data ++ ((".".data ++ (Nat.repr o3).data) ++
          (".".data ++ (Nat.repr o4).data)))))) :=
      full_cat mExt_schemeHead hsc (full_cat (mExt_str "172") h172
        (full_cat (mExt_char '.') hdot (full_cat mExt_mid172 h2
          (full_cat mExt_dotOct hd3 hd4))))
    have hdata : (sch ++ "://172." ++ toString o2 ++ "." ++ toString o3 ++ "." ++ toString o4).data
        = (sch ++ "://").data ++ ("172".data ++ (".".data ++
            ((Nat.repr o2).data ++ ((".".data ++ (Nat.repr o3).data) ++
              (".".data ++ (Nat.repr o4).data))))) := by
      show (sch ++ "://172." ++ Nat.repr o2 ++ "." ++ Nat.repr o3 ++ "." ++ Nat.repr o4).data = _
      rw [show ("://172." : String) = "://" ++ "172" ++ "." from rfl]
      simp [String.data_append, List.append_assoc]
    have hstart :
        startBoundary
          (sch ++ "://172." ++ toString o2 ++ "." ++ toString o3 ++ "." ++ toString o4).data = true := by
      have hsp : (sch ++ "://172." ++ toString o2 ++ "." ++ toString o3 ++ "." ++ toString o4).data
          = sch.data ++ ("://172." ++ toString o2 ++ "." ++ toString o3 ++ "." ++ toString o4).data := by
        simp [String.data_append, List.append_assoc]
      rw [hsp]
      exact startBoundary_append _ _ (scheme_start sch hsch)
    have hmem : [] ∈ hostAlt
        (sch ++ "://172." ++ toString o2 ++ "." ++ toString o3 ++ "." ++ toString o4).data := by
      rw [hdata]
      exact hostAlt_of_branch172 hbr
    exact test_true_of_host_mem hstart hmem rfl
  · exact ⟨by decide, by decide, by decide⟩

/-- Witness for C6: the in-range address `ws://172.31.255.255` matches. -/
theorem private_range_172_numeric_witness :
    local_filter_test ("ws" ++ "://172." ++ toString 31 ++ "." ++ toString 255 ++ "." ++ toString 255) = true :=
  private_range_172_numeric.1 "ws" (by decide) 31 255 255
    (by decide) (by decide) (by decide) (by decide)

/-- C7: a tab-update event with a URL differing from the stored `lastURL`
resets that tab's ledger — counter and alerted zeroed, blocked ports and hosts
entries removed, `lastURL` updated — while an event with no URL change, no URL
field, or no badge entry for the tab leaves the stored state unchanged. -/
theorem handleUpdated_resets_ledger {P H : Type} (tabId : Int) (ci : ChangeInfo) (ti : TabInfo)
    (st : LedgerState P H) :
    (∀ entry u, st.badges tabId = some entry → ci.url = some u → entry.lastURL ≠ u →
      ((handleUpdated tabId ci ti st).badges tabId = some ⟨0, 0, ti.url⟩ ∧
       (handleUpdated tabId ci ti st).blocked_ports tabId = none ∧
       (handleUpdated tabId ci ti st).blocked_hosts tabId = none)) ∧
    ((ci.url = none ∨ st.badges tabId = none ∨
      (∃ e u, st.badges tabId = some e ∧ ci.url = some u ∧ e.lastURL = u)) →
      handleUpdated tabId ci ti st = st) := by
  constructor
  · intro entry u hb hu hne
    unfold handleUpdated
    rw [hb, hu]
    simp [hne]
  · intro h
    unfold handleUpdated
    rcases h with h | h | ⟨e, u, hb, hu, heq⟩
    · rw [h]
      rcases st.badges tabId with _ | b <;> simp
    · rw [h]
    · rw [hb, hu]
      simp [heq]

/-- Witness for C7: navigating tab 5 away from its stored URL zeroes its badge
entry and removes its blocked-ports and blocked-hosts entries. -/
theorem handleUpdated_resets_ledger_witness :
    (handleUpdated 5 ⟨some "http://new.example/"⟩ ⟨"http://new.example/"⟩ sampleLedger).badges 5 =
        some ⟨0, 0, "http://new.example/"⟩ ∧
    (handleUpdated 5 ⟨some "http://new.example/"⟩ ⟨"http://new.example/"⟩ sampleLedger).blocked_ports 5 =
        none ∧
    (handleUpdated 5 ⟨some "http://new.example/"⟩ ⟨"http://new.example/"⟩ sampleLedger).blocked_hosts 5 =
        none :=
  (handleUpdated_resets_ledger 5 ⟨some "http://new.example/"⟩ ⟨"http://new.example/"⟩ sampleLedger).1
    ⟨3, 1, "http://old.example/"⟩ "http://new.example/" (by decide) rfl (by decide)

/-- C8 counterexample: the trailing-dot rewrite is not idempotent on every
hostname string — for `"a.."` a second application strips a second dot. -/
theorem normalize_not_idempotent :
    normalizeHostString (normalizeHostString "a..") ≠ normalizeHostString "a.." := by decide

/-- C8 amended: the rewrite strips at most one trailing dot per application,
so it is idempotent on every hostname that does not end in two consecutive
dots; in particular `normalize("localhost.") = normalize("localhost")`. -/
theorem normalize_idempotent_no_double_dot :
    (∀ h : String, ¬ (['.', '.'] <:+ h.data) →
      normalizeHostString (normalizeHostString h) = normalizeHostString h) ∧
    normalizeHostString "localhost." = normalizeHostString "localhost" := by
  constructor
  · intro h hsuf
    by_cases hall : h.data.all (fun c => !lineTerm c) = true
    · by_cases hdot : h.data.getLast? = some '.'
      · obtain ⟨l', hl'⟩ := List.getLast?_eq_some_iff.mp hdot
        have hdrop : h.data.dropLast = l' := by
          rw [hl']
          exact List.dropLast_concat
        have e : normalizeHostString h = String.mk l' := by
          simp [normalizeHostString, hall, hdot, hdrop]
        have hall' : l'.all (fun c => !lineTerm c) = true := by
          rw [List.all_eq_true] at hall ⊢
          intro x hx
          exact hall x (by rw [hl']; exact List.mem_append_left _ hx)
        have hdot' : ¬ (l'.getLast? = some '.') := by
          intro hcon
          obtain ⟨l'', hl''⟩ := List.getLast?_eq_some_iff.mp hcon
          exact hsuf ⟨l'', by rw [hl', hl'']; simp⟩
        rw [e]
        simp [normalizeHostString, hall', hdot']
      · have e : normalizeHostString h = h := by
          simp [normalizeHostString, hall, hdot]
        rw [e]
        exact e
    · have e : normalizeHostString h = "" := by
        simp [normalizeHostString, hall]
      rw [e]
      decide
  · decide

/-- Witness for the amended C8: idempotence at `"example.com."`. -/
theorem normalize_idempotent_no_double_dot_witness :
    normalizeHostString (normalizeHostString "example.com.") = normalizeHostString "example.com." :=
  normalize_idempotent_no_double_dot.1 "example.com." (by decide)

/-- C9 counterexample: a control message from a page of the extension's own
origin other than the popup page — here the settings page, whose URL is
literally the extension origin followed by a path — is rejected: no response,
no state change, even for `toggleEnabled`. -/
theorem same_origin_sender_rejected :
    onMessage "moz-extension://7190a179" (.toggleEnabled true)
      ("moz-extension://7190a179" ++ "/settings/settings.html") ⟨false, []⟩ =
      (none, ⟨false, []⟩) := by decide

/-- C9 amended: `onMessage` processes a control message exactly when the
sender URL is the extension's popup page URL; any other sender is answered
with no data and causes no state change, while the popup page's
`toggleEnabled` is processed. -/
theorem onMessage_popup_url_gate :
    (∀ (ext : String) (msg : Message) (sender : String) (st : BgState),
      sender ≠ ext ++ "/popup/popup.html" → onMessage ext msg sender st = (none, st)) ∧
    (∀ (ext : String) (st : BgState) (v : Bool),
      (onMessage ext (.toggleEnabled v) (ext ++ "/popup/popup.html") st).2.listenerAttached = v) := by
  constructor
  · intro ext msg sender st h
    simp [onMessage, h]
  · intro ext st v
    simp [onMessage]
    cases v <;> simp [start, stop, setItemInLocal]

/-- Witness for the amended C9: a web-page sender is rejected untouched. -/
theorem onMessage_popup_url_gate_witness :
    onMessage "moz-extension://7190a179" .popupInit "https://evil.example/page" ⟨true, []⟩ =
      (none, ⟨true, []⟩) :=
  onMessage_popup_url_gate.1 "moz-extension://7190a179" .popupInit
    "https://evil.example/page" ⟨true, []⟩ (by decide)

/-- C10: the verdict and effects of `cancel` are independent of the
`thirdParty` field — two descriptors differing only there evaluate equal. -/
theorem cancel_ignores_thirdParty :
    ∀ (env : Env) (o d u : Option String) (t : Int) (b1 b2 : Bool),
      cancel env ⟨o, d, b1, u, t⟩ = cancel env ⟨o, d, b2, u, t⟩ := by
  intros
  rfl

/-- Witness for C10: flipping `thirdParty` on a concrete blocked request. -/
theorem cancel_ignores_thirdParty_witness :
    cancel sampleEnv
      ⟨some "http://evil.example/", some "http://evil.example/", false, some "http://192.168.1.1:8080/", 5⟩ =
    cancel sampleEnv
      ⟨some "http://evil.example/", some "http://evil.example/", true, some "http://192.168.1.1:8080/", 5⟩ :=
  cancel_ignores_thirdParty sampleEnv (some "http://evil.example/") (some "http://evil.example/")
    (some "http://192.168.1.1:8080/") 5 false true

end PortAuthority
